import Mathlib

set_option maxRecDepth 10000
set_option linter.unusedVariables false

/-!
Shallow embedding of the fetcher-mcp repository: the download classification
logic of the download_url tool, the URL protocol validator, the browser
installer orchestration, and the browser_install tool handler.

JavaScript / Node primitives used by the source (String.prototype.trim,
String.prototype.toLowerCase, path.extname, path.posix.join, the
Content-Disposition filename regular expression, the WHATWG URL constructor,
Number coercion) are modelled as executable Lean functions, faithful to their
behaviour on the ASCII inputs the claims range over.  `path.sep` is modelled
as the posix separator "/".
-/

namespace FetcherMcp

/-- ASCII lower-casing of one character, as JS `toLowerCase` acts on ASCII. -/
def lowerChar (c : Char) : Char :=
  if 65 ≤ c.toNat && c.toNat ≤ 90 then Char.ofNat (c.toNat + 32) else c

/-- Model of `String.prototype.toLowerCase` (ASCII range). -/
def jsToLower (s : String) : String := String.mk (s.toList.map lowerChar)

/-- The whitespace characters stripped by `String.prototype.trim`. -/
def jsWhitespace (c : Char) : Bool :=
  c = ' ' || c = '\t' || c = '\n' || c = '\r' ||
  c.toNat = 11 || c.toNat = 12 || c.toNat = 160 || c.toNat = 65279

/-- Model of `String.prototype.trim`. -/
def jsTrim (s : String) : String :=
  String.mk (((s.toList.dropWhile jsWhitespace).reverse.dropWhile jsWhitespace).reverse)

/-- Model of `header.split(sep)[0]`: the part of the string before the first
separator (the whole string when the separator is absent). -/
def firstSegmentBefore (sep : Char) (s : String) : String :=
  String.mk (s.toList.takeWhile (fun c => c != sep))

/-- Drop the trailing path separators, as Node `path.extname` skips them. -/
def dropTrailingSlashes (l : List Char) : List Char :=
  (l.reverse.dropWhile (fun c => c == '/')).reverse

/-- The final path component (substring after the last separator). -/
def lastComponent (l : List Char) : List Char :=
  (l.reverse.takeWhile (fun c => c != '/')).reverse

/-- Extension of a basename, following Node `path.extname`: the suffix from
the last dot, except that a dot in first position or a basename of exactly
".." yields no extension. -/
def extOfBasename (b : List Char) : List Char :=
  if b.contains '.' then
    let suffix := '.' :: (b.reverse.takeWhile (fun c => c != '.')).reverse
    let d := b.length - suffix.length
    if d == 0 then [] else if b == ['.', '.'] then [] else suffix
  else []

/-- Model of Node `path.extname` (posix separators). -/
def extname (p : String) : String :=
  String.mk (extOfBasename (lastComponent (dropTrailingSlashes p.toList)))

/-- Split a character list on a separator character (like `split("/")`). -/
def splitOnChar (sep : Char) : List Char → List (List Char)
  | [] => [[]]
  | c :: cs =>
    let r := splitOnChar sep cs
    if c == sep then [] :: r
    else
      match r with
      | h :: t => (c :: h) :: t
      | [] => [[c]]

/-- Segment normalization of Node `path.posix.normalize`: empty and "."
segments are dropped, ".." pops the previous segment (or is kept when the
path is relative and there is nothing to pop). -/
def normalizeSegments (allowAboveRoot : Bool) (segs : List (List Char)) : List (List Char) :=
  (segs.foldl
    (fun acc seg =>
      if seg.isEmpty || seg == ['.'] then acc
      else if seg == ['.', '.'] then
        match acc with
        | [] => if allowAboveRoot then [seg] else []
        | top :: tl => if top == ['.', '.'] then seg :: acc else tl
      else seg :: acc)
    []).reverse

/-- Interleave path segments with "/" separators. -/
def joinSegments : List (List Char) → List Char
  | [] => []
  | [s] => s
  | s :: rest => s ++ '/' :: joinSegments rest

/-- Model of Node `path.posix.normalize`. -/
def posixNormalize (p : String) : String :=
  if p = "" then "."
  else
    let l := p.toList
    let isAbs := l.head? == some '/'
    let trailing := l.getLast? == some '/'
    let segs := normalizeSegments (!isAbs) (splitOnChar '/' l)
    let body := joinSegments segs
    if body.isEmpty then
      if isAbs then "/" else if trailing then "./" else "."
    else
      let body2 := if trailing then body ++ ['/'] else body
      if isAbs then String.mk ('/' :: body2) else String.mk body2

/-- Model of Node `path.posix.join` on two parts: concatenate the non-empty
parts with a separator and normalize. -/
def posixJoin (a b : String) : String :=
  if a = "" && b = "" then "."
  else if a = "" then posixNormalize b
  else if b = "" then posixNormalize a
  else posixNormalize (a ++ "/" ++ b)

/-- The content-type to default-extension table of downloadUrl.  The entry
for "application/octet-stream" maps to the empty string, which is distinct
from having no entry at all. -/
def contentTypeToExtension : String → Option String
  | "application/pdf" => some ".pdf"
  | "application/zip" => some ".zip"
  | "application/x-zip-compressed" => some ".zip"
  | "application/x-tar" => some ".tar"
  | "application/gzip" => some ".gz"
  | "application/x-gzip" => some ".gz"
  | "application/json" => some ".json"
  | "application/xml" => some ".xml"
  | "text/xml" => some ".xml"
  | "application/msword" => some ".doc"
  | "application/vnd.openxmlformats-officedocument.wordprocessingml.document" => some ".docx"
  | "application/vnd.ms-excel" => some ".xls"
  | "application/vnd.openxmlformats-officedocument.spreadsheetml.sheet" => some ".xlsx"
  | "application/vnd.ms-powerpoint" => some ".ppt"
  | "application/vnd.openxmlformats-officedocument.presentationml.presentation" => some ".pptx"
  | "application/octet-stream" => some ""
  | "image/jpeg" => some ".jpg"
  | "image/jpg" => some ".jpg"
  | "image/png" => some ".png"
  | "image/gif" => some ".gif"
  | "image/webp" => some ".webp"
  | "image/svg+xml" => some ".svg"
  | "image/bmp" => some ".bmp"
  | "image/tiff" => some ".tiff"
  | "text/plain" => some ".txt"
  | "text/html" => some ".html"
  | "text/css" => some ".css"
  | "text/javascript" => some ".js"
  | "application/javascript" => some ".js"
  | "text/csv" => some ".csv"
  | _ => none

/-- The extension to content-type table of downloadUrl (fallback detection). -/
def extensionToContentType : String → Option String
  | ".pdf" => some "application/pdf"
  | ".zip" => some "application/zip"
  | ".tar" => some "application/x-tar"
  | ".gz" => some "application/gzip"
  | ".json" => some "application/json"
  | ".xml" => some "application/xml"
  | ".doc" => some "application/msword"
  | ".docx" => some "application/vnd.openxmlformats-officedocument.wordprocessingml.document"
  | ".xls" => some "application/vnd.ms-excel"
  | ".xlsx" => some "application/vnd.openxmlformats-officedocument.spreadsheetml.sheet"
  | ".ppt" => some "application/vnd.ms-powerpoint"
  | ".pptx" => some "application/vnd.openxmlformats-officedocument.presentationml.presentation"
  | ".jpg" => some "image/jpeg"
  | ".jpeg" => some "image/jpeg"
  | ".png" => some "image/png"
  | ".gif" => some "image/gif"
  | ".webp" => some "image/webp"
  | ".svg" => some "image/svg+xml"
  | ".bmp" => some "image/bmp"
  | ".tiff" => some "image/tiff"
  | ".txt" => some "text/plain"
  | ".html" => some "text/html"
  | ".htm" => some "text/html"
  | ".css" => some "text/css"
  | ".js" => some "application/javascript"
  | ".csv" => some "text/csv"
  | _ => none

/-- Server-side script extensions that downloadUrl never trusts as a
content-type signal from the URL. -/
def serverSideScriptExtensions : List String :=
  [".php", ".cfm", ".cfml", ".jsp", ".asp", ".aspx", ".java", ".py",
   ".rb", ".pl", ".cgi", ".do", ".action"]

/-- Single-quote character (used by the filename parsing and quote strip). -/
def squote : Char := Char.ofNat 39

/-- Case-insensitive literal match of a pattern at the front of the input,
returning the rest of the input on success. -/
def matchCI : List Char → List Char → Option (List Char)
  | [], rest => some rest
  | _ :: _, [] => none
  | p :: ps, c :: cs => if lowerChar p == lowerChar c then matchCI ps cs else none

/-- The unquoted alternative of the filename value: a run of characters that
are neither ";" nor a newline. -/
def unquotedValue (l : List Char) : List Char :=
  l.takeWhile (fun c => c != ';' && c != '\n')

/-- Group 1 of the regular expression
`filename[^;=\n]*=((['"]).*?\2|[^;\n]*)` when matched right after the literal
"filename": a greedy run of characters other than ";", "=", newline, a
literal "=", then either a lazily quoted value (the dot does not cross a
newline) or an unquoted run. -/
def groupAfterFilename (rest0 : List Char) : Option (List Char) :=
  let run := rest0.takeWhile (fun c => c != ';' && c != '=' && c != '\n')
  match rest0.drop run.length with
  | '=' :: rest2 =>
    match rest2 with
    | q :: tail =>
      if q == '"' || q == squote then
        let inner := tail.takeWhile (fun c => c != q)
        if inner.contains '\n' then some (unquotedValue rest2)
        else
          match tail.drop inner.length with
          | _ :: _ => some (q :: (inner ++ [q]))
          | [] => some (unquotedValue rest2)
      else some (unquotedValue rest2)
    | [] => some []
  | _ => none

/-- Scan for the first position where the filename regular expression
matches, returning its first capture group. -/
def scanFilenameMatch : List Char → Option (List Char)
  | [] => none
  | c :: cs =>
    match matchCI ['f', 'i', 'l', 'e', 'n', 'a', 'm', 'e'] (c :: cs) with
    | some rest0 =>
      match groupAfterFilename rest0 with
      | some g => some g
      | none => scanFilenameMatch cs
    | none => scanFilenameMatch cs

/-- Drop one leading quote character if present. -/
def stripLeadingQuote (l : List Char) : List Char :=
  match l with
  | c :: rest => if c == '"' || c == squote then rest else l
  | [] => []

/-- Model of `serverFilename.replace(/^["']|["']$/g, "")`: remove one leading
and then one trailing quote. -/
def stripQuotes (s : String) : String :=
  let l1 := stripLeadingQuote s.toList
  String.mk ((stripLeadingQuote l1.reverse).reverse)

/-- The extension extracted from the Content-Disposition header of the
response (downloadUrl, filename parsing). -/
def serverFilenameExtensionOf (contentDisposition : String) : Option String :=
  if contentDisposition = "" then none
  else
    match scanFilenameMatch contentDisposition.toList with
    | none => none
    | some g =>
      let serverFilename := stripQuotes (String.mk g)
      let ext := extname serverFilename
      if ext = "" then none else some (jsToLower ext)

/-- The declared content type: first ";"-separated field of the header,
trimmed and lower-cased (downloadUrl). -/
def contentTypeOf (header : String) : String :=
  jsToLower (jsTrim (firstSegmentBefore ';' header))

/-- The URL extension used by downloadUrl: the extension of the lower-cased
URL, unless it is a server-side script extension. -/
def urlExtensionOf (url : String) : Option String :=
  let urlExtensionRaw := extname (jsToLower url)
  if urlExtensionRaw != "" && !(serverSideScriptExtensions.contains (jsToLower urlExtensionRaw)) then
    some urlExtensionRaw
  else none

/-- The extension of the lower-cased destination file path (downloadUrl). -/
def pathExtensionOf (filePath : String) : String :=
  extname (jsToLower filePath)

/-- The effective content type of downloadUrl: the declared type, upgraded
from the URL extension first and the path extension second only when the
declared type is empty, "application/octet-stream" or "text/plain". -/
def effectiveContentTypeOf (contentTypeHeader url filePath : String) : String :=
  let contentType := contentTypeOf contentTypeHeader
  if contentType == "" || contentType == "application/octet-stream" || contentType == "text/plain" then
    let fromUrl :=
      match urlExtensionOf url with
      | some e => extensionToContentType e
      | none => none
    let inferredType :=
      match fromUrl with
      | some t => some t
      | none =>
        if pathExtensionOf filePath == "" then none
        else extensionToContentType (pathExtensionOf filePath)
    match inferredType with
    | some t => t
    | none => contentType
  else contentType

/-- Does the extension map to a known type that is neither "text/html" nor
"text/plain"? -/
def nonTextMapped (e : String) : Bool :=
  match extensionToContentType e with
  | some t => t != "text/html" && t != "text/plain"
  | none => false

/-- The binary decision of downloadUrl: a disjunction of the URL-extension
signal, the Content-Disposition signal, the effective content-type signal and
the path-extension signal. -/
def isBinaryFileOf (contentTypeHeader contentDisposition url filePath : String) : Bool :=
  let eff := effectiveContentTypeOf contentTypeHeader url filePath
  let pe := pathExtensionOf filePath
  (match urlExtensionOf url with
   | some e => nonTextMapped e
   | none => false) ||
  (serverFilenameExtensionOf contentDisposition).isSome ||
  (eff != "" && eff != "text/html" && eff != "text/plain" && (contentTypeToExtension eff).isSome) ||
  (pe != "" && nonTextMapped pe)

/-- The expected extension of downloadUrl, resolved with nullish coalescing:
URL extension, then Content-Disposition extension, then the content-type
table entry for the effective type (possibly the empty string), then the path
extension. -/
def expectedExtensionOf (contentTypeHeader contentDisposition url filePath : String) : String :=
  match urlExtensionOf url with
  | some e => e
  | none =>
    match serverFilenameExtensionOf contentDisposition with
    | some e => e
    | none =>
      let eff := effectiveContentTypeOf contentTypeHeader url filePath
      match (if eff != "" then contentTypeToExtension eff else none) with
      | some e => e
      | none => pathExtensionOf filePath

/-- Does the path end with the (posix) path separator? -/
def endsWithSep (p : String) : Bool := p.toList.getLast? == some '/'

/-- The destination-path rewrite of downloadUrl: only for binary files with a
non-empty expected extension whose lower-cased current extension differs. -/
def rewriteFilePath (filePath : String) (isBinaryFile : Bool) (expectedExtension : String) : String :=
  if isBinaryFile && expectedExtension != "" then
    let currentExtension := jsToLower (extname filePath)
    if currentExtension == "" || currentExtension != jsToLower expectedExtension then
      if endsWithSep filePath then posixJoin filePath ("download" ++ expectedExtension)
      else if currentExtension == "" then filePath ++ expectedExtension
      else
        String.mk (filePath.toList.take (filePath.toList.length - currentExtension.toList.length))
          ++ expectedExtension
    else filePath
  else filePath

/-- The final destination path computed by downloadUrl. -/
def finalFilePathOf (contentTypeHeader contentDisposition url filePath : String) : String :=
  rewriteFilePath filePath
    (isBinaryFileOf contentTypeHeader contentDisposition url filePath)
    (expectedExtensionOf contentTypeHeader contentDisposition url filePath)

/-- The classification computed by downloadUrl for one response. -/
structure Classification where
  contentType : String
  effectiveContentType : String
  urlExtension : Option String
  serverFilenameExtension : Option String
  pathExtension : String
  isBinaryFile : Bool
  expectedExtension : String
  finalFilePath : String
deriving Repr, DecidableEq

/-- The classification section of downloadUrl as one pure function of the
response headers, the request URL and the destination path. -/
def downloadClassify (contentTypeHeader contentDisposition url filePath : String) : Classification :=
  { contentType := contentTypeOf contentTypeHeader
    effectiveContentType := effectiveContentTypeOf contentTypeHeader url filePath
    urlExtension := urlExtensionOf url
    serverFilenameExtension := serverFilenameExtensionOf contentDisposition
    pathExtension := pathExtensionOf filePath
    isBinaryFile := isBinaryFileOf contentTypeHeader contentDisposition url filePath
    expectedExtension := expectedExtensionOf contentTypeHeader contentDisposition url filePath
    finalFilePath := finalFilePathOf contentTypeHeader contentDisposition url filePath }

/-- Is the character an ASCII letter? -/
def isAsciiLetter (c : Char) : Bool :=
  (65 ≤ c.toNat && c.toNat ≤ 90) || (97 ≤ c.toNat && c.toNat ≤ 122)

/-- Is the character an ASCII digit? -/
def isAsciiDigit (c : Char) : Bool := 48 ≤ c.toNat && c.toNat ≤ 57

/-- Characters allowed inside a URL scheme after its first letter. -/
def isSchemeChar (c : Char) : Bool :=
  isAsciiLetter c || isAsciiDigit c || c == '+' || c == '-' || c == '.'

/-- Split a candidate absolute URL into its lower-cased scheme and the rest:
a leading ASCII letter, scheme characters, then a colon. -/
def splitScheme (s : String) : Option (String × List Char) :=
  match s.toList with
  | [] => none
  | c :: cs =>
    if isAsciiLetter c then
      let schemeChars := (c :: cs).takeWhile isSchemeChar
      match (c :: cs).drop schemeChars.length with
      | ':' :: rest => some (jsToLower (String.mk schemeChars), rest)
      | _ => none
    else none

/-- The special schemes of the WHATWG URL standard that require a host
(the "file" scheme is special but tolerates an empty host). -/
def specialSchemes : List String := ["http", "https", "ws", "wss", "ftp"]

/-- Model of the WHATWG `URL` constructor restricted to what the validator
observes: parse success and the normalized `protocol` property.  A URL parses
when it has a scheme; a special scheme other than "file" additionally needs a
non-empty host after the optional slashes. -/
def urlProtocol (s : String) : Option String :=
  match splitScheme s with
  | none => none
  | some (scheme, rest) =>
    if scheme = "file" then some "file:"
    else if specialSchemes.contains scheme then
      let afterSlashes := rest.dropWhile (fun c => c == '/' || c == '\\')
      let host := afterSlashes.takeWhile (fun c => c != '/' && c != '?' && c != '#' && c != '\\')
      if host.isEmpty then none else some (scheme ++ ":")
    else some (scheme ++ ":")

/-- The protocols accepted by the validator. -/
def allowedProtocols : List String := ["http:", "https:"]

/-- The single-URL validator (urlValidator.ts, validateUrlProtocol): errors
carry the `URLSecurityError` message, success returns the trimmed URL. -/
def validateUrlProtocol (url : String) : Except String String :=
  if url = "" then Except.error "URL must be a non-empty string"
  else if jsTrim url = "" then Except.error "URL cannot be empty or whitespace only"
  else
    match urlProtocol (jsTrim url) with
    | none => Except.error ("Invalid URL format: " ++ jsTrim url)
    | some protocol =>
      if allowedProtocols.contains protocol then Except.ok (jsTrim url)
      else
        Except.error
          ("URL protocol \"" ++ protocol ++
            "\" is not allowed. Only HTTP and HTTPS protocols are permitted.")

/-- The failure entry recorded for one URL of a batch, when it fails. -/
def urlFailure (u : String) : Option (String × String) :=
  match validateUrlProtocol u with
  | Except.error e => some (u, e)
  | Except.ok _ => none

/-- The validated URL recorded for one URL of a batch, when it succeeds. -/
def urlSuccess (u : String) : Option String :=
  match validateUrlProtocol u with
  | Except.ok v => some v
  | Except.error _ => none

/-- One iteration of the validateUrlsProtocol loop: append the validated URL
to the first accumulator on success, the failure entry to the second on
failure. -/
def collectStep (acc : List String × List (String × String)) (u : String) :
    List String × List (String × String) :=
  match validateUrlProtocol u with
  | Except.ok v => (acc.1 ++ [v], acc.2)
  | Except.error e => (acc.1, acc.2 ++ [(u, e)])

/-- The loop of validateUrlsProtocol: validate every element, appending
successes and failure entries to two accumulators in order. -/
def collectValidation (urls : List String) : List String × List (String × String) :=
  urls.foldl collectStep ([], [])

/-- The errors thrown by validateUrlsProtocol (the input is typed as a list,
so the "URLs must be an array" guard of the source cannot fire). -/
inductive UrlsError where
  | emptyArray
  | aggregate (entries : List (String × String))
deriving Repr, DecidableEq

/-- The batch validator (urlValidator.ts, validateUrlsProtocol): an empty
array is rejected; otherwise all elements are validated independently, and
any failures are thrown together as one aggregate error. -/
def validateUrlsProtocol (urls : List String) : Except UrlsError (List String) :=
  if urls = [] then Except.error UrlsError.emptyArray
  else
    let r := collectValidation urls
    if r.2 = [] then Except.ok r.1 else Except.error (UrlsError.aggregate r.2)

/-- External-collaborator calls of downloadUrl up to the navigation. -/
inductive DlEvent where
  | createBrowser
  | createContext
  | createPage
  | goto (url : String)
deriving Repr, DecidableEq

/-- The errors thrown by downloadUrl before navigation: a plain missing
parameter error is distinct from a URLSecurityError. -/
inductive DlError where
  | missingParam (msg : String)
  | security (msg : String)
deriving Repr, DecidableEq

/-- The prefix of downloadUrl up to and including the navigation call: the
empty-parameter guards, the protocol validation, then browser creation and
`page.goto`.  The first component records the external calls performed. -/
def downloadUrlToNavigation (url filePath : String) : List DlEvent × Except DlError Unit :=
  if url = "" then ([], Except.error (DlError.missingParam "URL parameter is required"))
  else if filePath = "" then ([], Except.error (DlError.missingParam "filePath parameter is required"))
  else
    match validateUrlProtocol url with
    | Except.error e => ([], Except.error (DlError.security e))
    | Except.ok _ =>
      ([DlEvent.createBrowser, DlEvent.createContext, DlEvent.createPage, DlEvent.goto url],
        Except.ok ())

/-- Is the outcome a URLSecurityError? -/
def isSecurityResult : Except DlError Unit → Bool
  | Except.error (DlError.security _) => true
  | _ => false

/-- A JavaScript argument value, as far as numeric option coercion needs. -/
inductive JsVal where
  | undef
  | num (n : Int)
  | str (s : String)
  | boolean (b : Bool)
deriving Repr, DecidableEq

/-- Decimal digits to a natural number. -/
def digitsToNat (l : List Char) : Nat :=
  l.foldl (fun a c => a * 10 + (c.toNat - 48)) 0

/-- Model of `Number(string)` restricted to integer literals: trimmed empty
input is 0, an optionally signed digit run is its value, anything else is NaN
(modelled as `none`). -/
def jsParseNumber (s : String) : Option Int :=
  let t := (jsTrim s).toList
  if t.isEmpty then some 0
  else
    match t with
    | '-' :: ds =>
      if !ds.isEmpty && ds.all isAsciiDigit then some (-(Int.ofNat (digitsToNat ds))) else none
    | '+' :: ds =>
      if !ds.isEmpty && ds.all isAsciiDigit then some (Int.ofNat (digitsToNat ds)) else none
    | ds => if ds.all isAsciiDigit then some (Int.ofNat (digitsToNat ds)) else none

/-- Model of the `Number(...)` coercion used for the FetchOptions numbers:
`none` models NaN. -/
def jsToNumber : JsVal → Option Int
  | JsVal.undef => none
  | JsVal.num n => some n
  | JsVal.str s => jsParseNumber s
  | JsVal.boolean b => some (if b then 1 else 0)

/-- Model of `Number(v) || d`: NaN and 0 are falsy, so both fall back to the
default. -/
def numberOrDefault (v : JsVal) (d : Int) : Int :=
  match jsToNumber v with
  | none => d
  | some n => if n = 0 then d else n

/-- The effective `timeout` of the FetchOptions built by downloadUrl. -/
def effectiveTimeout (v : JsVal) : Int := numberOrDefault v 30000

/-- The effective `navigationTimeout` of the FetchOptions built by
downloadUrl. -/
def effectiveNavigationTimeout (v : JsVal) : Int := numberOrDefault v 10000

/-- How the installer process ends: a close event with a (nullable) exit
code, or an error event when the process could not be started. -/
inductive ProcExit where
  | closed (code : Option Int)
  | failedToStart (msg : String)
deriving Repr, DecidableEq

/-- String interpolation of a nullable exit code, as JS renders it. -/
def jsNullableIntString : Option Int → String
  | some n => toString n
  | none => "null"

/-- installBrowser (browserInstaller.ts): resolves on exit code 0, rejects
with the exit-code message otherwise, and rejects with the process error
message when the process could not be started. -/
def installBrowser : ProcExit → Except String Bool
  | ProcExit.closed (some 0) => Except.ok true
  | ProcExit.closed code =>
    Except.error ("Browser installation failed with exit code: " ++ jsNullableIntString code)
  | ProcExit.failedToStart msg => Except.error msg

/-- ensureBrowserInstalled (browserInstaller.ts): check, install when absent,
re-check; a failed re-check after a successful install is its own
verification error.  The catch block of the source re-throws the same error
after logging, so it is a pass-through here. -/
def ensureBrowserInstalled (alreadyInstalled : Bool) (exit : ProcExit) (installedAfter : Bool) :
    Except String Unit :=
  if alreadyInstalled then Except.ok ()
  else
    match installBrowser exit with
    | Except.error e => Except.error e
    | Except.ok _ =>
      if installedAfter then Except.ok ()
      else Except.error "Browser installation verification failed"

/-- The result shape of executePlaywrightInstall (browserInstall.ts). -/
structure ExecResult where
  success : Bool
  output : String
  error : String
deriving Repr, DecidableEq

/-- executePlaywrightInstall: always resolves; success exactly on exit code
0, with the accumulated stdout and stderr (the process error message replaces
stderr on a spawn failure). -/
def executePlaywrightInstall (exit : ProcExit) (stdoutAcc stderrAcc : String) : ExecResult :=
  match exit with
  | ProcExit.closed code => { success := code == some 0, output := stdoutAcc, error := stderrAcc }
  | ProcExit.failedToStart msg => { success := false, output := stdoutAcc, error := msg }

/-- One text item of a tool result. -/
structure TextItem where
  type : String
  text : String
deriving Repr, DecidableEq

/-- The result object returned by a tool handler. -/
structure ToolResult where
  content : List TextItem
deriving Repr, DecidableEq

/-- The argument list built by browserInstall. -/
def installArgs (withDeps force : Bool) : List String :=
  ["playwright", "install"] ++ (if withDeps then ["--with-deps"] else []) ++
    (if force then ["--force"] else []) ++ ["chromium"]

/-- The success message of browserInstall. -/
def installSuccessMessage (withDeps : Bool) : String :=
  "Successfully installed Chromium browser" ++
    (if withDeps then " with system dependencies" else "")

/-- The `{ content: [{ type: "text", text }] }` result object shape shared by
every branch of browserInstall. -/
def textResult (t : String) : ToolResult :=
  { content := [{ type := "text", text := t }] }

/-- The browser_install tool handler (browserInstall.ts): `tryStep` is the
body of the try block, either a thrown exception message (caught by the
handler) or the spawn outcome with the accumulated stdout and stderr.  Every
outcome is returned as a single-text result; nothing is thrown. -/
def browserInstall (withDeps : Bool) (force : Bool)
    (tryStep : Except String (ProcExit × String × String)) : ToolResult :=
  match tryStep with
  | Except.error msg =>
    textResult
      ("❌ " ++ ("Chromium installation failed: " ++ msg) ++
        "\n\nPlease check your internet connection and try again. You may also need to run with elevated privileges.")
  | Except.ok (exitOutcome, out, err) =>
    let result := executePlaywrightInstall exitOutcome out err
    if result.success then
      textResult ("✅ " ++ installSuccessMessage withDeps ++ "\n\n" ++ result.output)
    else
      textResult
        ("❌ " ++ ("Failed to install Chromium browser: " ++ result.error) ++
          "\n\nOutput:\n" ++ result.output ++ "\n\nError:\n" ++ result.error)

/-- Did the try block end with installer exit code 0? -/
def installExitZero : Except String (ProcExit × String × String) → Bool
  | Except.ok (ProcExit.closed code, _, _) => code == some 0
  | _ => false

/-! Helper lemmas shared by the claims. -/

/-- A successful single-URL validation returns exactly the trimmed URL. -/
theorem validateUrlProtocol_ok_eq (u v : String) (h : validateUrlProtocol u = Except.ok v) :
    v = jsTrim u := by
  unfold validateUrlProtocol at h
  split at h
  · exact absurd h (by simp)
  · split at h
    · exact absurd h (by simp)
    · split at h
      · exact absurd h (by simp)
      · split at h
        · injection h with h'
          exact h'.symm
        · exact absurd h (by simp)

/-- The loop accumulators collect exactly the per-element successes and
failures, in order. -/
theorem foldl_collectStep (us : List String) :
    ∀ acc : List String × List (String × String),
      us.foldl collectStep acc =
        (acc.1 ++ us.filterMap urlSuccess, acc.2 ++ us.filterMap urlFailure) := by
  induction us with
  | nil => intro acc; simp
  | cons u rest ih =>
    intro acc
    rw [List.foldl_cons, ih]
    cases hv : validateUrlProtocol u with
    | ok v =>
      simp [collectStep, urlSuccess, urlFailure, hv, List.filterMap_cons]
    | error e =>
      simp [collectStep, urlSuccess, urlFailure, hv, List.filterMap_cons]

/-- The collected validation results, as filterMaps over the input. -/
theorem collectValidation_spec (urls : List String) :
    collectValidation urls = (urls.filterMap urlSuccess, urls.filterMap urlFailure) := by
  unfold collectValidation
  rw [foldl_collectStep]
  simp

/-- When no URL fails, every collected success is the trimmed input URL. -/
theorem filterMap_urlSuccess_of_no_failure (urls : List String)
    (h : urls.filterMap urlFailure = []) :
    urls.filterMap urlSuccess = urls.map jsTrim := by
  induction urls with
  | nil => simp
  | cons u rest ih =>
    rw [List.filterMap_cons] at h ⊢
    cases hv : validateUrlProtocol u with
    | ok v =>
      have hfu : urlFailure u = none := by simp [urlFailure, hv]
      have hsu : urlSuccess u = some v := by simp [urlSuccess, hv]
      rw [hfu] at h
      rw [hsu, List.map_cons, ih h, validateUrlProtocol_ok_eq u v hv]
    | error e =>
      have hfu : urlFailure u = some (u, e) := by simp [urlFailure, hv]
      rw [hfu] at h
      exact absurd h (by simp)

/-! The claims. -/

/-- C1 (counterexample): with content-type header "application/pdf" and a
request URL ending in ".html", `isBinaryFile` is true at this concrete input,
refuting the claim that it is false. -/
theorem C1_counterexample :
    (downloadClassify "application/pdf" "" "https://example.com/page.html" "out").isBinaryFile
      = true := by decide

/-- C1 (amended): with content-type header "application/pdf" and a URL whose
extension resolves to ".html", `isBinaryFile` is true — the effective content
type stays "application/pdf" (the URL extension only upgrades a missing,
octet-stream or text/plain header) and, being a mapped non-text type, forces
the binary decision; the URL extension wins only for `expectedExtension`,
which is ".html". -/
theorem C1_amended (ctHeader cdHeader url filePath : String)
    (hct : contentTypeOf ctHeader = "application/pdf")
    (hurl : urlExtensionOf url = some ".html") :
    (downloadClassify ctHeader cdHeader url filePath).isBinaryFile = true ∧
    (downloadClassify ctHeader cdHeader url filePath).expectedExtension = ".html" := by
  have heff : effectiveContentTypeOf ctHeader url filePath = "application/pdf" := by
    simp only [effectiveContentTypeOf, hct]
    rfl
  constructor
  · show isBinaryFileOf ctHeader cdHeader url filePath = true
    simp only [isBinaryFileOf, heff, hurl]
    rw [Bool.or_eq_true, Bool.or_eq_true, Bool.or_eq_true]
    exact Or.inl (Or.inr (by decide))
  · show expectedExtensionOf ctHeader cdHeader url filePath = ".html"
    simp only [expectedExtensionOf, hurl]

/-- C1 (witness): the amended claim at a concrete input. -/
theorem C1_witness :
    contentTypeOf "application/pdf; charset=binary" = "application/pdf" ∧
    urlExtensionOf "https://example.com/page.html" = some ".html" ∧
    (downloadClassify "application/pdf; charset=binary" ""
      "https://example.com/page.html" "out").isBinaryFile = true ∧
    (downloadClassify "application/pdf; charset=binary" ""
      "https://example.com/page.html" "out").expectedExtension = ".html" := by
  refine ⟨rfl, rfl, ?_, ?_⟩
  · exact (C1_amended "application/pdf; charset=binary" ""
      "https://example.com/page.html" "out" rfl rfl).1
  · exact (C1_amended "application/pdf; charset=binary" ""
      "https://example.com/page.html" "out" rfl rfl).2

/-- C2: when the effective content type is "application/octet-stream" and
neither the URL nor the Content-Disposition header yields an extension,
`expectedExtension` is the empty string taken from the table (the path
extension is not used as a fallback) and the destination path is not
rewritten. -/
theorem C2_octet_stream_empty_mapping (ctHeader cdHeader url filePath : String)
    (heff : effectiveContentTypeOf ctHeader url filePath = "application/octet-stream")
    (hurl : urlExtensionOf url = none)
    (hcd : serverFilenameExtensionOf cdHeader = none) :
    (downloadClassify ctHeader cdHeader url filePath).expectedExtension = "" ∧
    (downloadClassify ctHeader cdHeader url filePath).finalFilePath = filePath := by
  have hexp : expectedExtensionOf ctHeader cdHeader url filePath = "" := by
    simp only [expectedExtensionOf, hurl, hcd, heff]
    rfl
  refine ⟨hexp, ?_⟩
  show finalFilePathOf ctHeader cdHeader url filePath = filePath
  simp only [finalFilePathOf, hexp]
  simp [rewriteFilePath]

/-- C2 (witness): the claim at a concrete input whose destination path has an
extension (".bin"), showing the path extension is not used as a fallback. -/
theorem C2_witness :
    effectiveContentTypeOf "application/octet-stream" "https://example.com/file"
      "out/data.bin" = "application/octet-stream" ∧
    urlExtensionOf "https://example.com/file" = none ∧
    serverFilenameExtensionOf "" = none ∧
    (downloadClassify "application/octet-stream" "" "https://example.com/file"
      "out/data.bin").expectedExtension = "" ∧
    (downloadClassify "application/octet-stream" "" "https://example.com/file"
      "out/data.bin").finalFilePath = "out/data.bin" := by
  refine ⟨rfl, rfl, rfl, ?_, ?_⟩
  · exact (C2_octet_stream_empty_mapping "application/octet-stream" ""
      "https://example.com/file" "out/data.bin" rfl rfl rfl).1
  · exact (C2_octet_stream_empty_mapping "application/octet-stream" ""
      "https://example.com/file" "out/data.bin" rfl rfl rfl).2

/-- C3: for a non-empty batch, every element is validated independently; when
K ≥ 1 elements fail, the thrown aggregate error enumerates exactly those K
entries (each naming its URL and its reason, in order), and when K = 0 the
trimmed validated URLs are returned. -/
theorem C3_aggregate_all_failures (urls : List String) (K : Nat) (hne : urls ≠ [])
    (hK : K = (urls.filterMap urlFailure).length) :
    (1 ≤ K →
      validateUrlsProtocol urls =
        Except.error (UrlsError.aggregate (urls.filterMap urlFailure)) ∧
      (urls.filterMap urlFailure).length = K) ∧
    (K = 0 → validateUrlsProtocol urls = Except.ok (urls.map jsTrim)) := by
  unfold validateUrlsProtocol
  rw [if_neg hne, collectValidation_spec]
  constructor
  · intro h1
    have hfne : ¬ urls.filterMap urlFailure = [] := by
      intro h0
      rw [h0] at hK
      simp at hK
      omega
    rw [if_neg hfne]
    exact ⟨rfl, hK.symm⟩
  · intro h0
    have hfnil : urls.filterMap urlFailure = [] := by
      rw [h0] at hK
      exact List.length_eq_zero.mp hK.symm
    rw [if_pos hfnil]
    rw [filterMap_urlSuccess_of_no_failure urls hfnil]

/-- C3 (witness): a batch of three URLs with exactly two bad schemes yields
the aggregate error with exactly those two entries; a batch with none yields
the trimmed URLs. -/
theorem C3_witness :
    (["https://example.com", "ftp://example.com/file", "javascript:alert(1)"]
      ≠ ([] : List String)) ∧
    validateUrlsProtocol
        ["https://example.com", "ftp://example.com/file", "javascript:alert(1)"] =
      Except.error (UrlsError.aggregate
        (["https://example.com", "ftp://example.com/file",
          "javascript:alert(1)"].filterMap urlFailure)) ∧
    (["https://example.com", "ftp://example.com/file",
      "javascript:alert(1)"].filterMap urlFailure).length = 2 ∧
    validateUrlsProtocol ["https://example.com"] =
      Except.ok (["https://example.com"].map jsTrim) := by
  refine ⟨by decide, ?_, ?_, ?_⟩
  · exact ((C3_aggregate_all_failures
      ["https://example.com", "ftp://example.com/file", "javascript:alert(1)"] 2
      (by decide) (by decide)).1 (by decide)).1
  · exact ((C3_aggregate_all_failures
      ["https://example.com", "ftp://example.com/file", "javascript:alert(1)"] 2
      (by decide) (by decide)).1 (by decide)).2
  · exact (C3_aggregate_all_failures ["https://example.com"] 0
      (by decide) (by decide)).2 rfl

/-- C4 (counterexample): calling download_url with the empty URL string
throws the plain missing-parameter error, not a URLSecurityError, refuting
the claim for the empty-string case (navigation still never occurs). -/
theorem C4_counterexample :
    (downloadUrlToNavigation "" "out.txt").2 =
      Except.error (DlError.missingParam "URL parameter is required") ∧
    isSecurityResult (downloadUrlToNavigation "" "out.txt").2 = false := ⟨rfl, rfl⟩

/-- C4 (amended): whenever the URL fails protocol validation (whitespace-only,
unparseable, or a scheme outside http/https), download_url performs no
external call — no browser is created and goto is never reached — and, when
both parameters are non-empty strings, throws exactly the URLSecurityError of
the validator; an empty url or filePath instead throws the plain
required-parameter error (still with no navigation). -/
theorem C4_amended (url filePath e : String)
    (hval : validateUrlProtocol url = Except.error e) :
    (downloadUrlToNavigation url filePath).1 = [] ∧
    (url ≠ "" → filePath ≠ "" →
      (downloadUrlToNavigation url filePath).2 = Except.error (DlError.security e)) := by
  unfold downloadUrlToNavigation
  by_cases hu : url = ""
  · rw [if_pos hu]
    exact ⟨rfl, fun h _ => absurd hu h⟩
  · rw [if_neg hu]
    by_cases hf : filePath = ""
    · rw [if_pos hf]
      exact ⟨rfl, fun _ h => absurd hf h⟩
    · rw [if_neg hf, hval]
      exact ⟨rfl, fun _ _ => rfl⟩

/-- C4 (witness): the amended claim at the concrete URL
"javascript:alert(1)". -/
theorem C4_witness :
    validateUrlProtocol "javascript:alert(1)" =
      Except.error "URL protocol \"javascript:\" is not allowed. Only HTTP and HTTPS protocols are permitted." ∧
    (downloadUrlToNavigation "javascript:alert(1)" "out.txt").1 = [] ∧
    (downloadUrlToNavigation "javascript:alert(1)" "out.txt").2 =
      Except.error (DlError.security
        "URL protocol \"javascript:\" is not allowed. Only HTTP and HTTPS protocols are permitted.") := by
  refine ⟨rfl, ?_, ?_⟩
  · exact (C4_amended "javascript:alert(1)" "out.txt" _ rfl).1
  · exact (C4_amended "javascript:alert(1)" "out.txt" _ rfl).2 (by decide) (by decide)

/-- C5: with content-type "application/octet-stream" and Content-Disposition
header attachment; filename="report.pdf", and no applicable URL extension,
`isBinaryFile` is true and `expectedExtension` is ".pdf", for every
destination path. -/
theorem C5_content_disposition_binary (url filePath : String)
    (hurl : urlExtensionOf url = none) :
    (downloadClassify "application/octet-stream" "attachment; filename=\"report.pdf\""
      url filePath).isBinaryFile = true ∧
    (downloadClassify "application/octet-stream" "attachment; filename=\"report.pdf\""
      url filePath).expectedExtension = ".pdf" := by
  have hsf : serverFilenameExtensionOf "attachment; filename=\"report.pdf\"" =
      some ".pdf" := rfl
  constructor
  · show isBinaryFileOf "application/octet-stream" "attachment; filename=\"report.pdf\""
      url filePath = true
    simp only [isBinaryFileOf, hurl, hsf]
    rw [Bool.or_eq_true, Bool.or_eq_true, Bool.or_eq_true]
    exact Or.inl (Or.inl (Or.inr (by decide)))
  · show expectedExtensionOf "application/octet-stream" "attachment; filename=\"report.pdf\""
      url filePath = ".pdf"
    simp only [expectedExtensionOf, hurl, hsf]

/-- C5 (witness): the claim at a concrete extensionless URL. -/
theorem C5_witness :
    urlExtensionOf "https://example.com/download" = none ∧
    (downloadClassify "application/octet-stream" "attachment; filename=\"report.pdf\""
      "https://example.com/download" "out").isBinaryFile = true ∧
    (downloadClassify "application/octet-stream" "attachment; filename=\"report.pdf\""
      "https://example.com/download" "out").expectedExtension = ".pdf" := by
  refine ⟨rfl, ?_, ?_⟩
  · exact (C5_content_disposition_binary "https://example.com/download" "out" rfl).1
  · exact (C5_content_disposition_binary "https://example.com/download" "out" rfl).2

/-- C6: when the first check reports the browser absent, the installer
resolves with exit code 0, and the re-check still reports it absent,
ensureBrowserInstalled fails with the verification-specific message, which
differs from every installer-exit-code message. -/
theorem C6_verification_error (exitOutcome : ProcExit) (installedAfter : Bool)
    (hexit : exitOutcome = ProcExit.closed (some 0))
    (hafter : installedAfter = false) :
    ensureBrowserInstalled false exitOutcome installedAfter =
      Except.error "Browser installation verification failed" ∧
    (∀ code : Option Int,
      "Browser installation verification failed" ≠
        "Browser installation failed with exit code: " ++ jsNullableIntString code) := by
  subst hexit hafter
  refine ⟨rfl, ?_⟩
  intro code h
  have hlen := congrArg String.length h
  rw [String.length_append] at hlen
  have h1 : ("Browser installation verification failed" : String).length = 40 := rfl
  have h2 : ("Browser installation failed with exit code: " : String).length = 44 := rfl
  rw [h1, h2] at hlen
  omega

/-- C6 (witness): the claim at the concrete outcome. -/
theorem C6_witness :
    ensureBrowserInstalled false (ProcExit.closed (some 0)) false =
      Except.error "Browser installation verification failed" :=
  (C6_verification_error (ProcExit.closed (some 0)) false rfl rfl).1

/-- C7: for every binary download whose expected extension resolved to
".zip", the destination "out/" becomes "out/download.zip", "out/file" becomes
"out/file.zip", and "out/file.txt" becomes "out/file.zip". -/
theorem C7_rewrite_cases (ctHeader cdHeader url : String) :
    ((downloadClassify ctHeader cdHeader url "out/").isBinaryFile = true →
      (downloadClassify ctHeader cdHeader url "out/").expectedExtension = ".zip" →
      (downloadClassify ctHeader cdHeader url "out/").finalFilePath = "out/download.zip") ∧
    ((downloadClassify ctHeader cdHeader url "out/file").isBinaryFile = true →
      (downloadClassify ctHeader cdHeader url "out/file").expectedExtension = ".zip" →
      (downloadClassify ctHeader cdHeader url "out/file").finalFilePath = "out/file.zip") ∧
    ((downloadClassify ctHeader cdHeader url "out/file.txt").isBinaryFile = true →
      (downloadClassify ctHeader cdHeader url "out/file.txt").expectedExtension = ".zip" →
      (downloadClassify ctHeader cdHeader url "out/file.txt").finalFilePath = "out/file.zip") := by
  refine ⟨?_, ?_, ?_⟩
  · intro h1 h2
    have hfin : (downloadClassify ctHeader cdHeader url "out/").finalFilePath =
        rewriteFilePath "out/" ((downloadClassify ctHeader cdHeader url "out/").isBinaryFile)
          ((downloadClassify ctHeader cdHeader url "out/").expectedExtension) := rfl
    rw [hfin, h1, h2]
    decide
  · intro h1 h2
    have hfin : (downloadClassify ctHeader cdHeader url "out/file").finalFilePath =
        rewriteFilePath "out/file"
          ((downloadClassify ctHeader cdHeader url "out/file").isBinaryFile)
          ((downloadClassify ctHeader cdHeader url "out/file").expectedExtension) := rfl
    rw [hfin, h1, h2]
    decide
  · intro h1 h2
    have hfin : (downloadClassify ctHeader cdHeader url "out/file.txt").finalFilePath =
        rewriteFilePath "out/file.txt"
          ((downloadClassify ctHeader cdHeader url "out/file.txt").isBinaryFile)
          ((downloadClassify ctHeader cdHeader url "out/file.txt").expectedExtension) := rfl
    rw [hfin, h1, h2]
    decide

/-- C7 (witness): the three rewrite cases at a concrete binary download
("application/zip" response on an extensionless URL). -/
theorem C7_witness :
    (downloadClassify "application/zip" "" "https://example.com/archive"
      "out/").finalFilePath = "out/download.zip" ∧
    (downloadClassify "application/zip" "" "https://example.com/archive"
      "out/file").finalFilePath = "out/file.zip" ∧
    (downloadClassify "application/zip" "" "https://example.com/archive"
      "out/file.txt").finalFilePath = "out/file.zip" := by
  refine ⟨?_, ?_, ?_⟩
  · exact (C7_rewrite_cases "application/zip" "" "https://example.com/archive").1
      (by decide) (by decide)
  · exact (C7_rewrite_cases "application/zip" "" "https://example.com/archive").2.1
      (by decide) (by decide)
  · exact (C7_rewrite_cases "application/zip" "" "https://example.com/archive").2.2
      (by decide) (by decide)

/-- C8: the classification is a pure function of the response headers, the
request URL and the destination path: two evaluations on the same triple are
identical in every component. -/
theorem C8_deterministic (ctHeader cdHeader url filePath : String) :
    downloadClassify ctHeader cdHeader url filePath =
      downloadClassify ctHeader cdHeader url filePath := rfl

/-- C9: the browser_install handler is total — every outcome (exit code 0,
non-zero exit, null exit code, spawn failure, thrown exception) is returned
as a result of shape content = [(type "text", text)], with the text prefixed
by the success marker exactly on installer exit code 0 and by the failure
marker otherwise. -/
theorem C9_always_text_result (withDeps force : Bool)
    (tryStep : Except String (ProcExit × String × String)) :
    ∃ rest : String,
      browserInstall withDeps force tryStep =
        textResult ((if installExitZero tryStep then "✅ " else "❌ ") ++ rest) := by
  rcases tryStep with msg | ⟨exitOutcome, out, err⟩
  · exact ⟨_, rfl⟩
  · rcases exitOutcome with code | msg
    · cases hc : (code == some 0) with
      | true =>
        refine ⟨installSuccessMessage withDeps ++ "\n\n" ++ out, ?_⟩
        simp only [browserInstall, executePlaywrightInstall, installExitZero, hc]
        rfl
      | false =>
        refine ⟨"Failed to install Chromium browser: " ++ err ++
          "\n\nOutput:\n" ++ out ++ "\n\nError:\n" ++ err, ?_⟩
        simp only [browserInstall, executePlaywrightInstall, installExitZero, hc]
        simp [textResult, String.append_assoc]
    · exact ⟨_, rfl⟩

/-- C10: the numeric option coercion `Number(v) || default` of download_url
maps an absent, zero, or non-numeric timeout to 30000 ms and an absent, zero,
or non-numeric navigationTimeout to 10000 ms — an explicit zero cannot be
requested. -/
theorem C10_timeout_falsy_fallback :
    effectiveTimeout JsVal.undef = 30000 ∧
    effectiveTimeout (JsVal.num 0) = 30000 ∧
    (∀ s : String, jsParseNumber s = none → effectiveTimeout (JsVal.str s) = 30000) ∧
    effectiveNavigationTimeout JsVal.undef = 10000 ∧
    effectiveNavigationTimeout (JsVal.num 0) = 10000 ∧
    (∀ s : String, jsParseNumber s = none →
      effectiveNavigationTimeout (JsVal.str s) = 10000) := by
  refine ⟨rfl, rfl, ?_, rfl, rfl, ?_⟩
  · intro s hs
    simp [effectiveTimeout, numberOrDefault, jsToNumber, hs]
  · intro s hs
    simp [effectiveNavigationTimeout, numberOrDefault, jsToNumber, hs]

/-- C10 (witness): the non-numeric case at the concrete string "abc". -/
theorem C10_witness :
    jsParseNumber "abc" = none ∧
    effectiveTimeout (JsVal.str "abc") = 30000 ∧
    effectiveNavigationTimeout (JsVal.str "abc") = 10000 := by
  refine ⟨rfl, ?_, ?_⟩
  · exact C10_timeout_falsy_fallback.2.2.1 "abc" rfl
  · exact C10_timeout_falsy_fallback.2.2.2.2.2 "abc" rfl

end FetcherMcp
